import Mathlib

/-!
Verification of the extendr-api object-safety layer (src/extendr-api/src/lib.rs)
against its natural-language specification.

The file shallowly embeds the data model and operations of the crate:
R objects become a tagged inductive type, 64-bit floats become 64-bit
bit patterns (a Nat below 2 to the 64), machine integers become Int with
explicit range predicates, and fallible conversions return Except.
Functions whose bodies live in modules of the crate that are only
re-exported here (robj, thread_safety, logical) or in the embedding
runtime (libR-sys) are modelled from the specification; each such
definition says so in its doc comment.
-/

set_option autoImplicit false

namespace Extendr

/-- The reserved "not available" sentinel of the runtime for 32-bit
integers and logicals: the minimum signed 32-bit integer, written
std.i32.MIN in the source. -/
def naInteger : Int := -(2 ^ 31)

/-- Smallest signed 32-bit integer value. -/
def i32Min : Int := -(2 ^ 31)

/-- Largest signed 32-bit integer value. -/
def i32Max : Int := 2 ^ 31 - 1

/-- Membership of an Int in the signed 32-bit range. -/
def inI32Range (v : Int) : Prop := i32Min ≤ v ∧ v ≤ i32Max

instance (v : Int) : Decidable (inI32Range v) := by
  unfold inI32Range; infer_instance

/-- A logical (R boolean) value: a newtype over a 32-bit integer, as in
the logical module of the crate (struct Bool(pub i32)). -/
structure RBool where
  val : Int
deriving DecidableEq, Repr

/-- An element of an R character vector: a string or the character NA. -/
abbrev RStrElem := Option String

/-- Shallow embedding of the runtime value behind a Value Handle (Robj):
a tag together with the payload. Real vector elements are 64-bit IEEE
bit patterns so that NaN payloads are observable. -/
inductive Handle where
  /-- the null value -/
  | rnull
  /-- logical vector; each element an i32 with the NA sentinel allowed -/
  | logical (xs : List Int)
  /-- integer vector of 32-bit values -/
  | integer (xs : List Int)
  /-- real vector; elements are 64-bit bit patterns -/
  | real (xs : List Nat)
  /-- character vector -/
  | strings (xs : List RStrElem)
  /-- raw (byte) vector -/
  | raw (xs : List Nat)
deriving DecidableEq, Repr

/-- The error kinds of the error model (section 7 of the specification). -/
inductive RError where
  | typeMismatch
  | lengthMismatch
  | conversionFailure
  | runtimeSignaledError
deriving DecidableEq, Repr

/-! ## NA / sentinel model -/

/-- IsNA for i32, from the source: self equals std.i32.MIN. -/
def is_na_i32 (v : Int) : Bool := v == i32Min

/-- IsNA for Bool, from the source: the wrapped field self.0 equals
std.i32.MIN. -/
def is_na_bool (b : RBool) : Bool := b.val == i32Min

/-- The 32-bit low word of a 64-bit bit pattern. -/
def lowWord (bits : Nat) : Nat := bits % 2 ^ 32

/-- The 11-bit exponent field of a 64-bit IEEE pattern. -/
def expField (bits : Nat) : Nat := bits / 2 ^ 52 % 2 ^ 11

/-- The 52-bit mantissa field of a 64-bit IEEE pattern. -/
def mantissaField (bits : Nat) : Nat := bits % 2 ^ 52

/-- A 64-bit pattern is a NaN: exponent field all ones, mantissa nonzero. -/
def isNaN64 (bits : Nat) : Bool := expField bits == 2 ^ 11 - 1 && mantissaField bits != 0

/-- Modelled from the spec: R_IsNA of the embedding runtime (libR-sys is
an external collaborator specified only at its boundary). The runtime's
real NA is one specific reserved NaN whose payload carries the marker
1954 in the low word; R_IsNA recognises a NaN carrying that payload, and
no non-NaN and no NaN with a different payload word. -/
def R_IsNA (bits : Nat) : Bool := isNaN64 bits && lowWord bits == 1954

/-- IsNA for f64, from the source: delegates to R_IsNA of the runtime. -/
def is_na_f64 (bits : Nat) : Bool := R_IsNA bits

/-- The bit pattern of the runtime's real NA sentinel: high word
0x7FF00000, low word 1954. -/
def naRealBits : Nat := 0x7FF00000 * 2 ^ 32 + 1954

/-- The bit pattern of the default quiet NaN, 0x7FF8000000000000. -/
def defaultNaNBits : Nat := 0x7FF8 * 2 ^ 48

/-! ## Exact IEEE encoding of small integers as 64-bit reals -/

/-- The 64-bit IEEE pattern of an integer of magnitude at most 2 to the
52 (hence exactly representable): sign bit, biased exponent from the
base-2 logarithm, mantissa the normalised remainder. -/
def encodeF64OfInt (v : Int) : Nat :=
  if v = 0 then 0
  else
    (if v < 0 then 2 ^ 63 else 0) + (1023 + Nat.log2 v.natAbs) * 2 ^ 52 +
      (v.natAbs * 2 ^ (52 - Nat.log2 v.natAbs) - 2 ^ 52)

/-- Reads back a 64-bit IEEE pattern as an integer when it denotes one
in the exactly representable range, and nothing otherwise. -/
def decodeIntegralF64 (bits : Nat) : Option Int :=
  if bits = 0 then some 0
  else if expField bits < 1023 ∨ 1023 + 52 < expField bits then none
  else if (2 ^ 52 + mantissaField bits) % 2 ^ (52 - (expField bits - 1023)) = 0 then
    some ((if bits / 2 ^ 63 = 1 then (-1 : Int) else 1) *
      Int.ofNat ((2 ^ 52 + mantissaField bits) / 2 ^ (52 - (expField bits - 1023))))
  else none

/-! ## Conversion traits

The robj module of the crate is only re-exported from the file under
analysis, so the bidirectional conversions are modelled from the
specification, section 4.3. -/

/-- Modelled from the spec: converting a native i32 scalar to a Value
Handle yields an integer vector of length 1 (the From impl on Robj in
the missing robj module). -/
def to_handle_i32 (v : Int) : Handle := .integer [v]

/-- Modelled from the spec: reading a native i32 scalar back from a
Value Handle; TypeMismatch on a foreign tag, LengthMismatch when the
length differs from 1. -/
def from_handle_i32 : Handle → Except RError Int
  | .integer [v] => .ok v
  | .integer _ => .error .lengthMismatch
  | _ => .error .typeMismatch

/-- Modelled from the spec: converting a logical scalar to a Handle. -/
def to_handle_bool (b : RBool) : Handle := .logical [b.val]

/-- Modelled from the spec: reading a logical scalar from a Handle. -/
def from_handle_bool : Handle → Except RError RBool
  | .logical [v] => .ok ⟨v⟩
  | .logical _ => .error .lengthMismatch
  | _ => .error .typeMismatch

/-- Modelled from the spec: converting an f64 scalar (as its bit
pattern) to a Handle. -/
def to_handle_f64 (bits : Nat) : Handle := .real [bits]

/-- Modelled from the spec: reading an f64 scalar from a Handle. -/
def from_handle_f64 : Handle → Except RError Nat
  | .real [b] => .ok b
  | .real _ => .error .lengthMismatch
  | _ => .error .typeMismatch

/-- Modelled from the spec: converting a native UTF-8 string to a
character vector of length 1. -/
def to_handle_str (s : String) : Handle := .strings [some s]

/-- Modelled from the spec: reading a native string from a Handle. -/
def from_handle_str : Handle → Except RError String
  | .strings [some s] => .ok s
  | .strings [none] => .error .conversionFailure
  | .strings _ => .error .lengthMismatch
  | _ => .error .typeMismatch

/-- Modelled from the spec: converting a u8 scalar to a Handle; u8 is
special and maps to the raw (byte) vector type, as the export test of
the source asserts. -/
def to_handle_u8 (b : Nat) : Handle := .raw [b]

/-- Modelled from the spec: reading a u8 scalar from a Handle. -/
def from_handle_u8 : Handle → Except RError Nat
  | .raw [b] => .ok b
  | .raw _ => .error .lengthMismatch
  | _ => .error .typeMismatch

/-- Modelled from the spec: converting a byte slice to a raw Handle. -/
def to_handle_bytes (bs : List Nat) : Handle := .raw bs

/-- Modelled from the spec: converting a sequence of i32 to an integer
vector Handle. -/
def to_handle_ivec (xs : List Int) : Handle := .integer xs

/-- Modelled from the spec: reading a sequence of i32 from a Handle. -/
def from_handle_ivec : Handle → Except RError (List Int)
  | .integer xs => .ok xs
  | _ => .error .typeMismatch

/-- Modelled from the spec: converting a sequence of f64 bit patterns to
a real vector Handle. -/
def to_handle_rvec (xs : List Nat) : Handle := .real xs

/-- Modelled from the spec: reading a sequence of f64 from a Handle. -/
def from_handle_rvec : Handle → Except RError (List Nat)
  | .real xs => .ok xs
  | _ => .error .typeMismatch

/-- Modelled from the spec: i8 always fits the runtime's 32-bit integer
representation, so its conversion is unconditional. -/
def to_handle_i8 (v : Int) : Handle := .integer [v]

/-- Modelled from the spec: i16 always fits, unconditional conversion. -/
def to_handle_i16 (v : Int) : Handle := .integer [v]

/-- Modelled from the spec: u16 always fits, unconditional conversion. -/
def to_handle_u16 (v : Int) : Handle := .integer [v]

/-- Modelled from the spec: narrowing a native integer value that may
exceed the runtime's 32-bit signed range into the runtime's integer
representation checks the range and fails with ConversionFailure
instead of truncating. -/
def wideIntToIntegerHandle (v : Int) : Except RError Handle :=
  if inI32Range v then .ok (.integer [v]) else .error .conversionFailure

/-- Modelled from the spec: the i64 conversion to the runtime's integer
representation is the range-checked narrowing. -/
def to_handle_i64 (v : Int) : Except RError Handle := wideIntToIntegerHandle v

/-- Modelled from the spec: the u32 conversion (its values may exceed
the signed 32-bit range) is the range-checked narrowing. -/
def to_handle_u32 (v : Int) : Except RError Handle := wideIntToIntegerHandle v

/-- Modelled from the spec: the u64 conversion is the range-checked
narrowing. -/
def to_handle_u64 (v : Int) : Except RError Handle := wideIntToIntegerHandle v

/-- Modelled from the spec: conversion of a 32-bit integer into a
floating-point vector target, which represents every such value exactly
and therefore never fails. -/
def i32ToRealHandle (v : Int) : Handle := .real [encodeF64OfInt v]

/-! ## Option conversions (NA round trip) -/

/-- Modelled from the spec: an absent i32 maps to the integer NA
sentinel. -/
def to_handle_opt_i32 : Option Int → Handle
  | none => .integer [naInteger]
  | some v => .integer [v]

/-- Modelled from the spec: reading an optional i32 back recognises the
sentinel and reports absence. -/
def from_handle_opt_i32 : Handle → Except RError (Option Int)
  | .integer [v] => .ok (if v = naInteger then none else some v)
  | .integer _ => .error .lengthMismatch
  | _ => .error .typeMismatch

/-- Modelled from the spec: an absent logical maps to the logical NA
sentinel. -/
def to_handle_opt_bool : Option RBool → Handle
  | none => .logical [naInteger]
  | some b => .logical [b.val]

/-- Modelled from the spec: reading an optional logical back. -/
def from_handle_opt_bool : Handle → Except RError (Option RBool)
  | .logical [v] => .ok (if v = naInteger then none else some ⟨v⟩)
  | .logical _ => .error .lengthMismatch
  | _ => .error .typeMismatch

/-- Modelled from the spec: an absent f64 maps to the real NA bit
pattern. -/
def to_handle_opt_f64 : Option Nat → Handle
  | none => .real [naRealBits]
  | some bits => .real [bits]

/-- Modelled from the spec: reading an optional f64 back recognises the
reserved NaN payload via is_na. -/
def from_handle_opt_f64 : Handle → Except RError (Option Nat)
  | .real [b] => .ok (if is_na_f64 b then none else some b)
  | .real _ => .error .lengthMismatch
  | _ => .error .typeMismatch

/-- Modelled from the spec: an absent string maps to the character NA. -/
def to_handle_opt_str : Option String → Handle
  | none => .strings [none]
  | some s => .strings [some s]

/-- Modelled from the spec: reading an optional string back. -/
def from_handle_opt_str : Handle → Except RError (Option String)
  | .strings [e] => .ok e
  | .strings _ => .error .lengthMismatch
  | _ => .error .typeMismatch

/-! ## Call method registration (from the source) -/

/-- One call method entry handed to register_call_methods, from the
source struct CallMethod. -/
structure CallMethod where
  call_symbol : String
  func_ptr : Nat
  num_args : Int
deriving DecidableEq, Repr

/-- One row of the table handed to the runtime, from R_CallMethodDef;
name none and fn none model the null terminator row. -/
structure RCallMethodDef where
  name : Option String
  fn : Option Nat
  numArgs : Int
deriving DecidableEq, Repr

/-- The row built from one CallMethod in the map inside
register_call_methods. -/
def methodDefOf (m : CallMethod) : RCallMethodDef :=
  ⟨some m.call_symbol, some m.func_ptr, m.num_args⟩

/-- The table built by register_call_methods: the mapped entries with
the null row pushed at the end. -/
def buildRMethods (methods : List CallMethod) : List RCallMethodDef :=
  methods.map methodDefOf ++ [⟨none, none, 0⟩]

/-- The observable registration state of the loaded library: the
history of tables handed to the runtime and the two symbol flags. -/
structure DllInfo where
  callRoutines : List (List RCallMethodDef)
  useDynamicSymbols : Int
  forceSymbols : Int
deriving DecidableEq, Repr

/-- Modelled from the spec: the runtime's R_registerRoutines records the
table (external boundary; the runtime retains its own copy and reports
no error). -/
def R_registerRoutines (info : DllInfo) (table : List RCallMethodDef) : DllInfo :=
  { info with callRoutines := info.callRoutines ++ [table] }

/-- Modelled from the spec: the runtime's R_useDynamicSymbols sets the
flag and reports no error. -/
def R_useDynamicSymbols (info : DllInfo) (v : Int) : DllInfo :=
  { info with useDynamicSymbols := v }

/-- Modelled from the spec: the runtime's R_forceSymbols sets the flag
and reports no error. -/
def R_forceSymbols (info : DllInfo) (v : Int) : DllInfo :=
  { info with forceSymbols := v }

/-- register_call_methods from the source: builds the null-terminated
table, registers it, disables dynamic symbols, forces symbols. It keeps
no state of its own and performs no check of a prior invocation. -/
def register_call_methods (info : DllInfo) (methods : List CallMethod) : DllInfo :=
  R_forceSymbols (R_useDynamicSymbols (R_registerRoutines info (buildRMethods methods)) 0) 1

/-! ## Diagnostic output channel (from the source) -/

/-- The observable effect of one diagnostic call. -/
inductive ConsoleEffect where
  /-- CString construction failed on an interior NUL and the expect
  aborted the call before any runtime interaction -/
  | nulErrorAbort
  /-- Rprintf received this NUL-terminated buffer -/
  | output (bytes : List Nat)
  /-- REprintf received this NUL-terminated buffer -/
  | errorOut (bytes : List Nat)
deriving DecidableEq, Repr

/-- CString construction over a byte buffer: fails on an interior NUL,
otherwise appends the terminator. -/
def cstringNew (s : List Nat) : Option (List Nat) :=
  if 0 ∈ s then none else some (s ++ [0])

/-- print_r_output from the source: builds a CString (the expect aborts
on an interior NUL) and hands it to Rprintf. -/
def print_r_output (s : List Nat) : ConsoleEffect :=
  match cstringNew s with
  | none => .nulErrorAbort
  | some cs => .output cs

/-- print_r_error from the source: builds a CString (the expect aborts
on an interior NUL) and hands it to REprintf. -/
def print_r_error (s : List Nat) : ConsoleEffect :=
  match cstringNew s with
  | none => .nulErrorAbort
  | some cs => .errorOut cs

/-! ## Trampoline and panic boundary

handle_panic lives in the thread_safety module, re-exported but absent
from the file under analysis; the trampoline bodies are generated by the
attribute macros. Both are modelled from the specification, sections 4.5
and 7 and the panic-containment property of section 8. -/

/-- The protection stack state: its depth. -/
structure PState where
  depth : Nat
deriving DecidableEq, Repr

/-- Modelled from the spec: the behaviour of one native function body
run by the trampoline: how many protection registrations it makes, and
its outcome, a result Handle or none for an uncaught native panic. -/
structure NativeBody where
  protects : Nat
  result : Option Handle
deriving DecidableEq, Repr

/-- The outcome a trampoline hands back across the boundary: a value or
the runtime's error-signaling mechanism. A native panic has no
representation here, so it cannot cross. -/
inductive TrampolineOutcome where
  | value (h : Handle)
  | runtimeSignaledError
deriving DecidableEq, Repr

/-- Modelled from the spec: running the body pushes its protection
registrations onto the protection stack and produces its outcome. -/
def runBody (entry : PState) (b : NativeBody) : PState × Option Handle :=
  (⟨entry.depth + b.protects⟩, b.result)

/-- Modelled from the spec: unwinding (or scope exit) releases every
registration of the aborted call, restoring the entry depth. -/
def unwindToEntry (entryDepth : Nat) : PState := ⟨entryDepth⟩

/-- Modelled from the spec: handle_panic establishes the catch region at
the trampoline boundary; a normal result passes through, an uncaught
panic is intercepted and converted into the runtime's error-signaling
mechanism, and in both cases drops release the registrations of the
call. -/
def handle_panic (entryDepth : Nat) (r : PState × Option Handle) : TrampolineOutcome × PState :=
  match r.2 with
  | some h => (.value h, unwindToEntry entryDepth)
  | none => (.runtimeSignaledError, unwindToEntry entryDepth)

/-- Modelled from the spec: a trampoline runs the native body inside the
panic boundary of handle_panic. -/
def trampoline (st : PState) (b : NativeBody) : TrampolineOutcome × PState :=
  handle_panic st.depth (runBody st b)

end Extendr

namespace Extendr

/-- Decoding inverts the sign-exponent-mantissa assembly produced by the
encoder, for any nonzero magnitude up to 2 to the 52 and any sign bit. -/
theorem decode_core (a : Nat) (ha : a ≠ 0) (ha52 : a ≤ 2 ^ 52) (s : Nat) (hs : s ≤ 1) :
    decodeIntegralF64 (s * 2 ^ 63 + (1023 + Nat.log2 a) * 2 ^ 52 +
        (a * 2 ^ (52 - Nat.log2 a) - 2 ^ 52))
      = some ((if s = 1 then (-1 : Int) else 1) * Int.ofNat a) := by
  set k := Nat.log2 a with hkdef
  have hk1 : 2 ^ k ≤ a := Nat.log2_self_le ha
  have hk2 : a < 2 ^ (k + 1) := Nat.lt_log2_self
  have hk52 : k ≤ 52 := by
    have := (Nat.log2_lt ha).mpr (lt_of_le_of_lt ha52 (by norm_num : (2 : Nat) ^ 52 < 2 ^ 53))
    omega
  have hpow : 2 ^ k * 2 ^ (52 - k) = 2 ^ 52 := by
    rw [← pow_add]
    congr 1
    omega
  have hA1 : 2 ^ 52 ≤ a * 2 ^ (52 - k) := by
    calc 2 ^ 52 = 2 ^ k * 2 ^ (52 - k) := hpow.symm
    _ ≤ a * 2 ^ (52 - k) := Nat.mul_le_mul_right _ hk1
  have hA2 : a * 2 ^ (52 - k) < 2 ^ 53 := by
    calc a * 2 ^ (52 - k) < 2 ^ (k + 1) * 2 ^ (52 - k) :=
          mul_lt_mul_of_pos_right hk2 (pow_pos (by norm_num) _)
    _ = 2 ^ 53 := by
          rw [← pow_add]
          congr 1
          omega
  set m := a * 2 ^ (52 - k) - 2 ^ 52 with hmdef
  have hmA : m + 2 ^ 52 = a * 2 ^ (52 - k) := Nat.sub_add_cancel hA1
  have hm : m < 2 ^ 52 := by omega
  set bits := s * 2 ^ 63 + (1023 + k) * 2 ^ 52 + m with hbits
  have hp : (2 : Nat) ^ 63 = 2 ^ 52 * 2 ^ 11 := by norm_num
  have h2048 : (2 : Nat) ^ 11 = 2048 := by norm_num
  have hb23 : (1023 + k) * 2 ^ 52 + m < 2 ^ 63 := by
    have h1 : (1023 + k) * 2 ^ 52 ≤ 1075 * 2 ^ 52 := Nat.mul_le_mul_right _ (by omega)
    have h2 : (1075 : Nat) * 2 ^ 52 + 2 ^ 52 ≤ 2 ^ 63 := by norm_num
    omega
  have hbne : bits ≠ 0 := by
    have : 0 < (1023 + k) * 2 ^ 52 := Nat.mul_pos (by omega) (pow_pos (by norm_num) _)
    omega
  have hsign : bits / 2 ^ 63 = s := by
    have h1 : bits = 2 ^ 63 * s + ((1023 + k) * 2 ^ 52 + m) := by
      rw [hbits]; ring
    rw [h1, Nat.mul_add_div (by positivity), Nat.div_eq_of_lt hb23, add_zero]
  have he : expField bits = 1023 + k := by
    unfold expField
    have h1 : bits = 2 ^ 52 * (s * 2 ^ 11 + (1023 + k)) + m := by
      rw [hbits, hp]; ring
    rw [h1, Nat.mul_add_div (by positivity), Nat.div_eq_of_lt hm, add_zero,
      Nat.mul_add_mod', Nat.mod_eq_of_lt (by omega)]
  have hm' : mantissaField bits = m := by
    unfold mantissaField
    have h1 : bits = (s * 2 ^ 11 + (1023 + k)) * 2 ^ 52 + m := by
      rw [hbits, hp]; ring
    rw [h1, Nat.mul_add_mod', Nat.mod_eq_of_lt hm]
  unfold decodeIntegralF64
  rw [if_neg hbne, he, hm', hsign]
  rw [if_neg (by omega : ¬(1023 + k < 1023 ∨ 1023 + 52 < 1023 + k))]
  have hsub : 1023 + k - 1023 = k := by omega
  rw [hsub]
  have hAm : 2 ^ 52 + m = a * 2 ^ (52 - k) := by omega
  rw [hAm, Nat.mul_mod_left, if_pos rfl, Nat.mul_div_cancel _ (pow_pos (by norm_num) _)]

/-- Decoding the encoding of any integer of magnitude at most 2 to the
52 recovers the integer. -/
theorem decode_encode_f64 (v : Int) (h : v.natAbs ≤ 2 ^ 52) :
    decodeIntegralF64 (encodeF64OfInt v) = some v := by
  by_cases hv0 : v = 0
  · subst hv0
    decide
  · have ha : v.natAbs ≠ 0 := by
      intro h0
      exact hv0 (Int.natAbs_eq_zero.mp h0)
    by_cases hneg : v < 0
    · have henc : encodeF64OfInt v = 1 * 2 ^ 63 + (1023 + Nat.log2 v.natAbs) * 2 ^ 52 +
          (v.natAbs * 2 ^ (52 - Nat.log2 v.natAbs) - 2 ^ 52) := by
        unfold encodeF64OfInt
        rw [if_neg hv0, if_pos hneg, one_mul]
      rw [henc, decode_core v.natAbs ha h 1 (le_refl 1), if_pos rfl]
      have habs : (Int.ofNat v.natAbs) = -v := Int.ofNat_natAbs_of_nonpos (le_of_lt hneg)
      rw [habs, neg_one_mul, neg_neg]
    · have henc : encodeF64OfInt v = 0 * 2 ^ 63 + (1023 + Nat.log2 v.natAbs) * 2 ^ 52 +
          (v.natAbs * 2 ^ (52 - Nat.log2 v.natAbs) - 2 ^ 52) := by
        unfold encodeF64OfInt
        rw [if_neg hv0, if_neg hneg, zero_mul]
      rw [henc, decode_core v.natAbs ha h 0 (by omega), if_neg (by decide : ¬(0 : Nat) = 1),
        one_mul]
      have habs : (Int.ofNat v.natAbs) = v := Int.natAbs_of_nonneg (not_lt.mp hneg)
      rw [habs]

/-- Claim C2: For every signed 32-bit integer value v, is_na v is true
iff v equals the runtime's reserved integer sentinel; and for every
logical value, is_na is true iff its underlying 32-bit integer equals
that same sentinel. -/
theorem c2_is_na_integer_and_logical (v : Int) (hv : inI32Range v) (b : RBool)
    (hb : inI32Range b.val) :
    (is_na_i32 v = true ↔ v = naInteger) ∧
    (is_na_bool b = true ↔ b.val = naInteger) := by
  constructor
  · simp [is_na_i32, naInteger, i32Min]
  · simp [is_na_bool, naInteger, i32Min]

/-- Witness for C2 at the concrete sentinel value. -/
theorem c2_is_na_integer_and_logical_witness :
    (inI32Range (-(2 ^ 31)) ∧ inI32Range (RBool.mk 0).val) ∧
    ((is_na_i32 (-(2 ^ 31)) = true ↔ -(2 ^ 31) = naInteger) ∧
      (is_na_bool (RBool.mk 0) = true ↔ (RBool.mk 0).val = naInteger)) :=
  ⟨⟨by decide, by decide⟩,
    c2_is_na_integer_and_logical (-(2 ^ 31)) (by decide) (RBool.mk 0) (by decide)⟩

/-- Claim C3: is_na for 64-bit floats is exact-bit recognition of the
runtime's reserved NaN payload: it holds of the sentinel pattern, it
fails on the default NaN even though that is a NaN, and in general it
holds exactly of a NaN whose low payload word is the reserved marker. -/
theorem c3_is_na_f64_exact_bits :
    is_na_f64 naRealBits = true ∧
    (isNaN64 defaultNaNBits = true ∧ is_na_f64 defaultNaNBits = false) ∧
    ∀ bits : Nat, is_na_f64 bits = true ↔ (isNaN64 bits = true ∧ lowWord bits = 1954) := by
  refine ⟨by decide, ⟨by decide, by decide⟩, ?_⟩
  intro bits
  simp [is_na_f64, R_IsNA]

/-- Claim C4: for every supported scalar, vector and string type and
every in-range value v, converting v to a Value Handle and back
succeeds and returns exactly v. -/
theorem c4_round_trip (v : Int) (hv : inI32Range v) (b : RBool) (hb : inI32Range b.val)
    (bits : Nat) (hbits : bits < 2 ^ 64) (s : String) (w : Nat) (hw : w < 256)
    (xs : List Int) (hxs : ∀ x ∈ xs, inI32Range x)
    (ys : List Nat) (hys : ∀ y ∈ ys, y < 2 ^ 64) :
    from_handle_i32 (to_handle_i32 v) = .ok v ∧
    from_handle_bool (to_handle_bool b) = .ok b ∧
    from_handle_f64 (to_handle_f64 bits) = .ok bits ∧
    from_handle_str (to_handle_str s) = .ok s ∧
    from_handle_u8 (to_handle_u8 w) = .ok w ∧
    from_handle_ivec (to_handle_ivec xs) = .ok xs ∧
    from_handle_rvec (to_handle_rvec ys) = .ok ys :=
  ⟨rfl, rfl, rfl, rfl, rfl, rfl, rfl⟩

/-- Witness for C4 at concrete in-range values of each type. -/
theorem c4_round_trip_witness :
    from_handle_i32 (to_handle_i32 5) = .ok 5 ∧
    from_handle_bool (to_handle_bool ⟨1⟩) = .ok ⟨1⟩ ∧
    from_handle_f64 (to_handle_f64 naRealBits) = .ok naRealBits ∧
    from_handle_str (to_handle_str "x") = .ok "x" ∧
    from_handle_u8 (to_handle_u8 123) = .ok 123 ∧
    from_handle_ivec (to_handle_ivec [1, 2, 3]) = .ok [1, 2, 3] ∧
    from_handle_rvec (to_handle_rvec [0]) = .ok [0] :=
  c4_round_trip 5 (by decide) ⟨1⟩ (by decide) naRealBits (by decide) "x" 123 (by decide)
    [1, 2, 3] (by decide) [0] (by decide)

/-- Claim C5: for every supported type with a representable NA sentinel,
converting the absent value produces the sentinel, and converting the
sentinel handle back reports absence rather than a value or an error. -/
theorem c5_na_round_trip :
    (to_handle_opt_i32 none = .integer [naInteger] ∧
      from_handle_opt_i32 (to_handle_opt_i32 none) = .ok none) ∧
    (to_handle_opt_bool none = .logical [naInteger] ∧
      from_handle_opt_bool (to_handle_opt_bool none) = .ok none) ∧
    (to_handle_opt_f64 none = .real [naRealBits] ∧
      from_handle_opt_f64 (to_handle_opt_f64 none) = .ok none) ∧
    (to_handle_opt_str none = .strings [none] ∧
      from_handle_opt_str (to_handle_opt_str none) = .ok none) := by
  refine ⟨⟨rfl, ?_⟩, ⟨rfl, ?_⟩, ⟨rfl, ?_⟩, ⟨rfl, rfl⟩⟩
  · show Except.ok (if naInteger = naInteger then none else some naInteger) = Except.ok none
    rw [if_pos rfl]
  · show Except.ok (if naInteger = naInteger then none else some (RBool.mk naInteger))
        = Except.ok none
    rw [if_pos rfl]
  · show Except.ok (if is_na_f64 naRealBits then none else some naRealBits) = Except.ok none
    rw [if_pos (show is_na_f64 naRealBits = true by decide)]

/-- Claim C7: a native integer value outside the runtime's signed
32-bit range is rejected with an error when narrowed to the runtime's
integer representation, never truncated; narrowing to a floating-point
vector target is exempt and succeeds for every 32-bit integer value,
which that target represents exactly. -/
theorem c7_range_checked_narrowing (w : Int) (hw : w < i32Min ∨ i32Max < w)
    (v : Int) (hv : inI32Range v) :
    to_handle_i64 w = .error .conversionFailure ∧
    to_handle_u32 w = .error .conversionFailure ∧
    to_handle_u64 w = .error .conversionFailure ∧
    i32ToRealHandle v = .real [encodeF64OfInt v] ∧
    decodeIntegralF64 (encodeF64OfInt v) = some v := by
  have hwide : wideIntToIntegerHandle w = .error .conversionFailure := by
    unfold wideIntToIntegerHandle
    rw [if_neg]
    intro hr
    rcases hr with ⟨h1, h2⟩
    rcases hw with h | h
    · exact absurd h1 (not_le.mpr h)
    · exact absurd h2 (not_le.mpr h)
  refine ⟨hwide, hwide, hwide, rfl, ?_⟩
  apply decode_encode_f64
  rcases hv with ⟨h1, h2⟩
  unfold i32Min at h1
  unfold i32Max at h2
  have h52 : (2 : Nat) ^ 52 = 4503599627370496 := by norm_num
  have h31 : (2 : Int) ^ 31 = 2147483648 := by norm_num
  rw [h31] at h1 h2
  omega

/-- Witness for C7 at the out-of-range value 2 to the 31 and the
in-range value negative 123. -/
theorem c7_range_checked_narrowing_witness :
    to_handle_i64 (2 ^ 31) = .error .conversionFailure ∧
    to_handle_u32 (2 ^ 31) = .error .conversionFailure ∧
    to_handle_u64 (2 ^ 31) = .error .conversionFailure ∧
    i32ToRealHandle (-123) = .real [encodeF64OfInt (-123)] ∧
    decodeIntegralF64 (encodeF64OfInt (-123)) = some (-123) :=
  c7_range_checked_narrowing (2 ^ 31) (by right; decide) (-123) (by decide)

/-- Claim C8: a handle whose type tag is incompatible with the
requested native type yields a TypeMismatch error (a string handle read
as i32 never yields a garbage integer), and for scalar targets a
compatible handle whose length differs from 1 yields LengthMismatch. -/
theorem c8_mismatch_detection (xs : List RStrElem) (ys : List Int) (hys : ys.length ≠ 1) :
    from_handle_i32 (.strings xs) = .error .typeMismatch ∧
    from_handle_i32 (.integer ys) = .error .lengthMismatch := by
  refine ⟨rfl, ?_⟩
  match ys, hys with
  | [], _ => rfl
  | [y], h => exact absurd rfl h
  | y :: z :: rest, _ => rfl

/-- Witness for C8 at a concrete string handle and a length-2 integer
handle. -/
theorem c8_mismatch_detection_witness :
    from_handle_i32 (.strings [some "x"]) = .error .typeMismatch ∧
    from_handle_i32 (.integer [1, 2]) = .error .lengthMismatch :=
  c8_mismatch_detection [some "x"] [1, 2] (by decide)

/-- Claim C9: a diagnostic write whose buffer holds an embedded NUL is
rejected locally, before any bytes reach the runtime's console; a
well-formed buffer is handed, NUL-terminated, to the runtime's console
call, which reports no failure to the native side. -/
theorem c9_print_channels (s : List Nat) :
    (0 ∈ s → print_r_output s = .nulErrorAbort ∧ print_r_error s = .nulErrorAbort) ∧
    (0 ∉ s → print_r_output s = .output (s ++ [0]) ∧ print_r_error s = .errorOut (s ++ [0])) := by
  constructor
  · intro hnul
    unfold print_r_output print_r_error cstringNew
    rw [if_pos hnul]
    exact ⟨rfl, rfl⟩
  · intro hok
    unfold print_r_output print_r_error cstringNew
    rw [if_neg hok]
    exact ⟨rfl, rfl⟩

/-- Witness for C9 on a buffer with an embedded NUL and on a well-formed
buffer. -/
theorem c9_print_channels_witness :
    (print_r_output [104, 0, 105] = .nulErrorAbort ∧
      print_r_error [104, 0, 105] = .nulErrorAbort) ∧
    (print_r_output [104, 105] = .output [104, 105, 0] ∧
      print_r_error [104, 105] = .errorOut [104, 105, 0]) :=
  ⟨(c9_print_channels [104, 0, 105]).1 (by decide),
    (c9_print_channels [104, 105]).2 (by decide)⟩

/-- Claim C1: a native function body that panics has the panic
intercepted at the trampoline boundary and converted into the runtime's
error-signaling mechanism; the trampoline returns RuntimeSignaledError
and the protection stack depth equals the depth before the call. -/
theorem c1_panic_containment (st : PState) (b : NativeBody) (hpanic : b.result = none) :
    (trampoline st b).1 = .runtimeSignaledError ∧
    (trampoline st b).2.depth = st.depth := by
  unfold trampoline handle_panic runBody unwindToEntry
  rw [hpanic]
  exact ⟨rfl, rfl⟩

/-- Witness for C1: a body that protects three values and then panics,
run at protection depth five. -/
theorem c1_panic_containment_witness :
    (trampoline ⟨5⟩ ⟨3, none⟩).1 = .runtimeSignaledError ∧
    (trampoline ⟨5⟩ ⟨3, none⟩).2.depth = (⟨5⟩ : PState).depth :=
  c1_panic_containment ⟨5⟩ ⟨3, none⟩ rfl

/-- Claim C6 counterexample: a second invocation of
register_call_methods is silently accepted: it completes like any
first invocation — recording a second copy of the same table and
resetting the flags — and the operation has no error outcome at all, so
no programming error is reported at load time. -/
theorem c6_double_registration_counterexample :
    register_call_methods
        (register_call_methods ⟨[], 1, 0⟩ [⟨"wrap__fred", 17, 1⟩]) [⟨"wrap__fred", 17, 1⟩]
      = ⟨[buildRMethods [⟨"wrap__fred", 17, 1⟩], buildRMethods [⟨"wrap__fred", 17, 1⟩]], 0, 1⟩ := by
  decide

/-- Claim C6 amended: register_call_methods performs no detection of a
prior invocation; on every call, whatever the existing registration
state, it unconditionally appends the null-terminated method table to
the runtime's registration state, disables dynamic symbols and forces
symbols, and it has no error reporting path. -/
theorem c6_registration_unconditional (info : DllInfo) (methods : List CallMethod) :
    register_call_methods info methods
      = ⟨info.callRoutines ++ [methods.map methodDefOf ++ [⟨none, none, 0⟩]],
          0, 1⟩ := rfl

/-- Claim C10: converting a u8 scalar produces a raw (byte) vector
handle, equal to the handle of the one-byte slice, while every other
integer width produces the integer handle of the value: at value 123,
each other width's handle is the integer vector of length 1 holding
123, and the u8 handle differs from it. -/
theorem c10_u8_is_raw :
    to_handle_u8 123 = .raw [123] ∧
    to_handle_u8 123 = to_handle_bytes [123] ∧
    to_handle_i8 123 = to_handle_i32 123 ∧
    to_handle_i16 123 = to_handle_i32 123 ∧
    to_handle_u16 123 = to_handle_i32 123 ∧
    to_handle_i64 123 = .ok (to_handle_i32 123) ∧
    to_handle_u32 123 = .ok (to_handle_i32 123) ∧
    to_handle_u64 123 = .ok (to_handle_i32 123) ∧
    to_handle_i32 123 = .integer [123] ∧
    to_handle_u8 123 ≠ to_handle_i32 123 := by
  refine ⟨rfl, rfl, rfl, rfl, rfl, ?_, ?_, ?_, rfl, by decide⟩ <;>
    · show wideIntToIntegerHandle 123 = Except.ok (to_handle_i32 123)
      unfold wideIntToIntegerHandle
      rw [if_pos (show inI32Range 123 by decide)]
      rfl

end Extendr
